import Mathlib

/-!
Shallow embedding of `scylla/src/transport/connection_keeper.rs`.

The file under verification owns a single logical connection slot: a
`ConnectionKeeper` handle holding the read side of a watch cell seeded with
`ConnectionState::Initializing`, and a background `ConnectionKeeperWorker`
that performs exactly one connection attempt and publishes either
`Connected` or `Broken`.

External collaborators (`connection::open_connection`, the connection's
`use_keyspace`, `get_shard_info`, and `ShardInfo::draw_source_port_for_shard`
from `crate::routing`) live outside the verified file; they are abstracted
into an `Env` record of functions.  The worker's run is embedded as a pure
function producing a list of observable events (the open call together with
the source port passed to it, the keyspace-selection call, state
publications to the watch cell, and sends on the shared shard-info sink),
so that ordering and counting claims become statements about the trace.
-/

namespace ConnKeeper

/-- Stand-in for `Arc<Connection>`: connections are identified by an id, and
`Arc::clone` of the same handle yields an equal value. -/
structure Connection where
  id : Nat
deriving DecidableEq, Repr

/-- Stand-in for the cloneable opaque `QueryError`. -/
structure QueryError where
  code : Nat
deriving DecidableEq, Repr

/-- Stand-in for `crate::routing::ShardInfo`; only the `shard` field is read
by the keeper (`info.shard.into()` at the call of
`draw_source_port_for_shard`). -/
structure ShardInfo where
  shard : Nat
deriving DecidableEq, Repr

/-- Stand-in for `VerifiedKeyspaceName`, an opaque already-validated token. -/
structure VerifiedKeyspaceName where
  name : String
deriving DecidableEq, Repr

/-- Stand-in for `std::net::SocketAddr`, passed through unmodified. -/
abbrev SocketAddr := Nat

/-- Stand-in for `ConnectionConfig`, an opaque bag passed through unmodified. -/
abbrev ConnectionConfig := Nat

/-- The `ConnectionState` enum of the source file. -/
inductive ConnectionState where
  | Initializing
  | Connected (conn : Connection)
  | Broken (e : QueryError)
deriving DecidableEq, Repr

/-- Observable events of one worker run: the call of
`connection::open_connection` (recording the `source_port` argument), the
keyspace-selection call on the fresh connection, a `send` on the
`conn_state_sender` watch cell, and a `send` on the shared shard-info sink. -/
inductive Event where
  | openCall (sourcePort : Option Nat)
  | useKeyspaceCall (conn : Connection) (ks : VerifiedKeyspaceName)
  | publish (st : ConnectionState)
  | sinkSend (v : Option ShardInfo)
deriving DecidableEq, Repr

/-- External collaborators of the keeper, abstracted as functions, plus the
runtime condition of the shared sink (whether its mutex is poisoned and
whether its `send` fails because no receiver is left).  The keeper treats
all of these as opaque. -/
structure Env where
  open_connection : SocketAddr → Option Nat → ConnectionConfig → Except QueryError Connection
  conn_use_keyspace : Connection → VerifiedKeyspaceName → Except QueryError Unit
  get_shard_info : Connection → Option ShardInfo
  draw_source_port_for_shard : ShardInfo → Nat → Nat
  sink_lock_poisoned : Bool
  sink_send_fails : Bool

/-- The `ConnectionKeeperWorker` struct: construction-time data captured by
value.  The `Option<ShardInfoSender>` is represented by whether it is
present; the sender's runtime condition lives in `Env`. -/
structure ConnectionKeeperWorker where
  address : SocketAddr
  config : ConnectionConfig
  shard_info : Option ShardInfo
  has_shard_info_sender : Bool
  used_keyspace : Option VerifiedKeyspaceName
deriving DecidableEq, Repr

/-- The source port computed at the top of `open_new_connection`:
`None` unless a `ShardInfo` was supplied, in which case
`Some(info.draw_source_port_for_shard(info.shard.into()))`. -/
def sourcePortOf (env : Env) (w : ConnectionKeeperWorker) : Option Nat :=
  match w.shard_info with
  | some info => some (env.draw_source_port_for_shard info info.shard)
  | none => none

/-- `ConnectionKeeperWorker::open_new_connection`: derive the source port,
open the connection (propagating failure with `?`), then, if a keyspace was
supplied at construction, call `use_keyspace` on the fresh connection and
discard its result (`let _ = ...`).  Returns the trace of external calls
together with the `Result`. -/
def open_new_connection (env : Env) (w : ConnectionKeeperWorker) :
    List Event × Except QueryError Connection :=
  let source_port := sourcePortOf env w
  match env.open_connection w.address source_port w.config with
  | Except.error e => ([Event.openCall source_port], Except.error e)
  | Except.ok new_conn =>
    match w.used_keyspace with
    | some keyspace_name =>
      let _ := env.conn_use_keyspace new_conn keyspace_name
      ([Event.openCall source_port, Event.useKeyspaceCall new_conn keyspace_name],
        Except.ok new_conn)
    | none => ([Event.openCall source_port], Except.ok new_conn)

/-- `ConnectionKeeperWorker::work`: run `open_new_connection` once; on
success publish `Connected(conn)` and then, if a shard-info sink was
configured and its lock is not poisoned, send the connection's reported
shard info through it (the send result is discarded); on failure publish
`Broken(e)`. -/
def work (env : Env) (w : ConnectionKeeperWorker) : List Event :=
  let opened := open_new_connection env w
  match opened.2 with
  | Except.ok conn =>
    let new_shard_info := env.get_shard_info conn
    let sinkEvents :=
      if w.has_shard_info_sender then
        if env.sink_lock_poisoned then [] else [Event.sinkSend new_shard_info]
      else []
    opened.1 ++ [Event.publish (ConnectionState.Connected conn)] ++ sinkEvents
  | Except.error e => opened.1 ++ [Event.publish (ConnectionState.Broken e)]

/-- The states sent through the `conn_state_sender` watch cell during the
worker's run, in order. -/
def publishes (evs : List Event) : List ConnectionState :=
  evs.filterMap fun ev =>
    match ev with
    | Event.publish st => some st
    | _ => none

/-- The source ports of the `open_connection` calls made during the run. -/
def openCalls (evs : List Event) : List (Option Nat) :=
  evs.filterMap fun ev =>
    match ev with
    | Event.openCall p => some p
    | _ => none

/-- The full sequence of values held by the watch cell: the seed
`Initializing` installed by `ConnectionKeeper::new`, followed by every state
the worker publishes. -/
def statesSeen (env : Env) (w : ConnectionKeeperWorker) : List ConnectionState :=
  ConnectionState.Initializing :: publishes (work env w)

/-- The value the watch cell holds once the worker's run is over: the last
published state (`connection_state()` after completion returns this). -/
def finalState (env : Env) (w : ConnectionKeeperWorker) : ConnectionState :=
  (statesSeen env w).getLastD ConnectionState.Initializing

/-- The `match` inside `ConnectionKeeper::get_connection`: `Connected` gives
`Ok`, `Broken` gives `Err`, and the catch-all `unreachable!()` arm is
represented by `none` (a panic). -/
def resolveState (st : ConnectionState) : Option (Except QueryError Connection) :=
  match st with
  | ConnectionState.Connected conn => some (Except.ok conn)
  | ConnectionState.Broken e => some (Except.error e)
  | ConnectionState.Initializing => none

/-- `ConnectionKeeper::get_connection`: await initialization (after which the
watch cell holds `finalState`), then resolve it; `none` is the
`unreachable!()` panic. -/
def get_connection (env : Env) (w : ConnectionKeeperWorker) :
    Option (Except QueryError Connection) :=
  resolveState (finalState env w)

/-- `ConnectionKeeper::use_keyspace`: await `get_connection`, propagate its
error with `?` (making no keyspace-selection call), otherwise call
`use_keyspace` on the returned connection and propagate its result.  The
second component is the list of keyspace-selection calls made on the
connection; `none` again stands for the unreachable panic. -/
def use_keyspace (env : Env) (w : ConnectionKeeperWorker)
    (keyspace_name : VerifiedKeyspaceName) :
    Option (Except QueryError Unit × List Event) :=
  match get_connection env w with
  | none => none
  | some (Except.error e) => some (Except.error e, [])
  | some (Except.ok conn) =>
    some (env.conn_use_keyspace conn keyspace_name,
      [Event.useKeyspaceCall conn keyspace_name])

/-- `use_keyspace` with the keeper's state threaded explicitly: the method
takes `&self` (a shared reference), so the worker's construction-time data
is returned unchanged. -/
def use_keyspace_full (env : Env) (w : ConnectionKeeperWorker)
    (keyspace_name : VerifiedKeyspaceName) :
    Option (Except QueryError Unit) × ConnectionKeeperWorker :=
  ((use_keyspace env w keyspace_name).map Prod.fst, w)

/-- `ConnectionKeeper::wait_until_initialized`, over the publication
sequence `pubs` of the watch cell.  `j` is the number of publications
(seed included) already delivered when the caller first reads the cell
(`1 ≤ j ≤ pubs.length`).  If the value read is not `Initializing` the call
returns at once and that value is what the caller observes; otherwise the
caller awaits `changed()`, which completes exactly when a further
publication exists, after which the caller observes the latest value.
`none` means the caller never wakes (deadlock). -/
def wait_until_initialized (pubs : List ConnectionState) (j : Nat) :
    Option ConnectionState :=
  if h : 0 < j ∧ j ≤ pubs.length then
    match pubs.get ⟨j - 1, by omega⟩ with
    | ConnectionState.Initializing =>
      if j < pubs.length then some (pubs.getLastD ConnectionState.Initializing)
      else none
    | st => some st
  else none

/-- The value held by the shared shard-info sink after the worker's run,
starting from `prev`: a successful `sinkSend` replaces the value, a failing
one leaves it unchanged. -/
def sinkValueAfter (env : Env) (prev : Option ShardInfo) (evs : List Event) :
    Option ShardInfo :=
  evs.foldl
    (fun acc ev =>
      match ev with
      | Event.sinkSend v => if env.sink_send_fails then acc else v
      | _ => acc)
    prev

/-- A concrete environment: the open call succeeds with connection `7`, the
connection's keyspace selection fails, and the fresh connection reports no
shard info. -/
def envOkEx : Env where
  open_connection := fun _ _ _ => Except.ok ⟨7⟩
  conn_use_keyspace := fun _ _ => Except.error ⟨3⟩
  get_shard_info := fun _ => none
  draw_source_port_for_shard := fun info shard => 40000 + 8 * shard + info.shard
  sink_lock_poisoned := false
  sink_send_fails := false

/-- A concrete environment whose open call fails with error `5`. -/
def envErrEx : Env where
  open_connection := fun _ _ _ => Except.error ⟨5⟩
  conn_use_keyspace := fun _ _ => Except.ok ()
  get_shard_info := fun _ => some ⟨2⟩
  draw_source_port_for_shard := fun info shard => 40000 + 8 * shard + info.shard
  sink_lock_poisoned := false
  sink_send_fails := false

/-- `envOkEx` with a keyspace-selection operation that fails with error `9`. -/
def envOkKsFail : Env :=
  { envOkEx with conn_use_keyspace := fun _ _ => Except.error ⟨9⟩ }

/-- A concrete worker: shard-aware (shard `3`), with a configured sink and a
construction-time keyspace. -/
def wEx : ConnectionKeeperWorker where
  address := 1
  config := 0
  shard_info := some ⟨3⟩
  has_shard_info_sender := true
  used_keyspace := some ⟨"ks1"⟩

/-! Trace characterization lemmas shared by the claim theorems. -/

/-- The call trace of `open_new_connection`, by cases on the open result and
the construction-time keyspace. -/
lemma open_new_connection_eq (env : Env) (w : ConnectionKeeperWorker) :
    open_new_connection env w =
      match env.open_connection w.address (sourcePortOf env w) w.config with
      | Except.error e => ([Event.openCall (sourcePortOf env w)], Except.error e)
      | Except.ok c =>
        match w.used_keyspace with
        | some ks =>
          ([Event.openCall (sourcePortOf env w), Event.useKeyspaceCall c ks], Except.ok c)
        | none => ([Event.openCall (sourcePortOf env w)], Except.ok c) := by
  rcases h : env.open_connection w.address (sourcePortOf env w) w.config with e | c
  · simp [open_new_connection, h]
  · rcases hks : w.used_keyspace with _ | ks <;> simp [open_new_connection, h, hks]

/-- The worker publishes exactly one state: `Connected` on success, `Broken`
on failure, independently of the sink configuration. -/
lemma publishes_work (env : Env) (w : ConnectionKeeperWorker) :
    publishes (work env w) =
      match env.open_connection w.address (sourcePortOf env w) w.config with
      | Except.ok c => [ConnectionState.Connected c]
      | Except.error e => [ConnectionState.Broken e] := by
  rcases h : env.open_connection w.address (sourcePortOf env w) w.config with e | c
  · simp [work, open_new_connection_eq, publishes, h]
  · rcases hks : w.used_keyspace with _ | ks <;>
      cases hs : w.has_shard_info_sender <;>
      cases hp : env.sink_lock_poisoned <;>
      simp [work, open_new_connection_eq, publishes, h, hks, hs, hp]

/-- The watch cell's value sequence, by cases on the open result. -/
lemma statesSeen_eq (env : Env) (w : ConnectionKeeperWorker) :
    statesSeen env w =
      match env.open_connection w.address (sourcePortOf env w) w.config with
      | Except.ok c => [ConnectionState.Initializing, ConnectionState.Connected c]
      | Except.error e => [ConnectionState.Initializing, ConnectionState.Broken e] := by
  rcases h : env.open_connection w.address (sourcePortOf env w) w.config with e | c <;>
    simp [statesSeen, publishes_work, h]

/-- The final watch-cell value, by cases on the open result. -/
lemma finalState_eq (env : Env) (w : ConnectionKeeperWorker) :
    finalState env w =
      match env.open_connection w.address (sourcePortOf env w) w.config with
      | Except.ok c => ConnectionState.Connected c
      | Except.error e => ConnectionState.Broken e := by
  rcases h : env.open_connection w.address (sourcePortOf env w) w.config with e | c <;>
    simp [finalState, statesSeen_eq, h]

/-- The `Result` of `open_new_connection` is the `Result` of the open call. -/
lemma open_new_connection_snd (env : Env) (w : ConnectionKeeperWorker) :
    (open_new_connection env w).2 =
      env.open_connection w.address (sourcePortOf env w) w.config := by
  rw [open_new_connection_eq]
  rcases h : env.open_connection w.address (sourcePortOf env w) w.config with e | c
  · rfl
  · rcases hks : w.used_keyspace with _ | ks <;> simp

/-- The full trace of a successful run: the open-side calls, then the
publication of `Connected`, then the sink events (at most one send,
dropped when no sink is configured or its lock is poisoned). -/
lemma work_ok_eq (env : Env) (w : ConnectionKeeperWorker) (c : Connection)
    (h : env.open_connection w.address (sourcePortOf env w) w.config = Except.ok c) :
    work env w =
      (open_new_connection env w).1 ++ [Event.publish (ConnectionState.Connected c)] ++
        (if w.has_shard_info_sender then
          if env.sink_lock_poisoned then [] else [Event.sinkSend (env.get_shard_info c)]
        else []) := by
  have h2 : (open_new_connection env w).2 = Except.ok c := by
    rw [open_new_connection_snd, h]
  simp [work, h2]

/-- Every run makes exactly one open call, with the computed source port. -/
lemma openCalls_work (env : Env) (w : ConnectionKeeperWorker) :
    openCalls (work env w) = [sourcePortOf env w] := by
  rcases h : env.open_connection w.address (sourcePortOf env w) w.config with e | c
  · simp [work, open_new_connection_eq, openCalls, h]
  · rcases hks : w.used_keyspace with _ | ks <;>
      cases hs : w.has_shard_info_sender <;>
      cases hp : env.sink_lock_poisoned <;>
      simp [work, open_new_connection_eq, openCalls, h, hks, hs, hp]

/-- The final watch-cell value is never `Initializing`. -/
lemma finalState_ne_initializing (env : Env) (w : ConnectionKeeperWorker) :
    finalState env w ≠ ConnectionState.Initializing := by
  rcases h : env.open_connection w.address (sourcePortOf env w) w.config with e | c <;>
    simp [finalState_eq, h]

/-- Every caller of `wait_until_initialized`, whenever it first reads the
cell, completes and observes the final state. -/
lemma wait_eq_finalState (env : Env) (w : ConnectionKeeperWorker) (j : Nat)
    (h1 : 0 < j) (h2 : j ≤ (statesSeen env w).length) :
    wait_until_initialized (statesSeen env w) j = some (finalState env w) := by
  have hs := statesSeen_eq env w
  have hf := finalState_eq env w
  rcases h : env.open_connection w.address (sourcePortOf env w) w.config with e | c
  · rw [h] at hs hf
    rw [hs] at h2 ⊢
    rw [hf]
    simp only [List.length_cons, List.length_nil] at h2
    have hj : j = 1 ∨ j = 2 := by omega
    rcases hj with rfl | rfl <;> simp [wait_until_initialized, List.getLastD]
  · rw [h] at hs hf
    rw [hs] at h2 ⊢
    rw [hf]
    simp only [List.length_cons, List.length_nil] at h2
    have hj : j = 1 ∨ j = 2 := by omega
    rcases hj with rfl | rfl <;> simp [wait_until_initialized, List.getLastD]

/-- C1: the watch cell is seeded with `Initializing` at construction and the
worker publishes exactly one further state, which is `Connected` or
`Broken`; no state is published after that and the sequence never returns
to `Initializing`. -/
theorem c1_single_transition (env : Env) (w : ConnectionKeeperWorker) :
    ∃ s, statesSeen env w = [ConnectionState.Initializing, s] ∧
      ((∃ c, s = ConnectionState.Connected c) ∨ (∃ e, s = ConnectionState.Broken e)) := by
  rcases h : env.open_connection w.address (sourcePortOf env w) w.config with e | c
  · exact ⟨_, by simp [statesSeen_eq, h], Or.inr ⟨e, rfl⟩⟩
  · exact ⟨_, by simp [statesSeen_eq, h], Or.inl ⟨c, rfl⟩⟩

/-- C2: whenever `wait_until_initialized` returns, the observed state is not
`Initializing`, so the catch-all `unreachable!()` arm of `get_connection`
is never taken: the state resolves to `Ok` on `Connected` and `Err` on
`Broken`. -/
theorem c2_wait_postcondition (env : Env) (w : ConnectionKeeperWorker) (j : Nat)
    (h1 : 0 < j) (h2 : j ≤ (statesSeen env w).length) :
    ∃ st, wait_until_initialized (statesSeen env w) j = some st ∧
      st ≠ ConnectionState.Initializing ∧
      ((∃ c, st = ConnectionState.Connected c ∧ resolveState st = some (Except.ok c)) ∨
        (∃ e, st = ConnectionState.Broken e ∧ resolveState st = some (Except.error e))) := by
  have hs := statesSeen_eq env w
  rcases h : env.open_connection w.address (sourcePortOf env w) w.config with e | c
  · rw [h] at hs
    rw [hs] at h2 ⊢
    simp only [List.length_cons, List.length_nil] at h2
    have hj : j = 1 ∨ j = 2 := by omega
    rcases hj with rfl | rfl <;>
      exact ⟨ConnectionState.Broken e, by simp [wait_until_initialized, List.getLastD],
        by simp, Or.inr ⟨e, rfl, rfl⟩⟩
  · rw [h] at hs
    rw [hs] at h2 ⊢
    simp only [List.length_cons, List.length_nil] at h2
    have hj : j = 1 ∨ j = 2 := by omega
    rcases hj with rfl | rfl <;>
      exact ⟨ConnectionState.Connected c, by simp [wait_until_initialized, List.getLastD],
        by simp, Or.inl ⟨c, rfl, rfl⟩⟩

/-- C3: if the single connection attempt fails with `E`, the worker publishes
`Broken(E)`, `connection_state` thereafter reports `Broken(E)`, every
subsequent `get_connection` returns `Err(E)` and every `use_keyspace`
returns `Err(E)` as a `Result` (no panic), without ever invoking the
connection's keyspace-selection operation. -/
theorem c3_broken_terminal (env : Env) (w : ConnectionKeeperWorker)
    (ks : VerifiedKeyspaceName) (E : QueryError)
    (h : env.open_connection w.address (sourcePortOf env w) w.config = Except.error E) :
    statesSeen env w = [ConnectionState.Initializing, ConnectionState.Broken E] ∧
    finalState env w = ConnectionState.Broken E ∧
    get_connection env w = some (Except.error E) ∧
    use_keyspace env w ks = some (Except.error E, []) := by
  simp [statesSeen_eq, finalState_eq, get_connection, use_keyspace, resolveState, h]

/-- C4: the worker makes exactly one open call; its source port is the one
drawn by `draw_source_port_for_shard` from the construction-time
`ShardInfo`'s shard id when one was supplied, and `None` otherwise. -/
theorem c4_source_port (env : Env) (w : ConnectionKeeperWorker) :
    openCalls (work env w) = [sourcePortOf env w] ∧
    sourcePortOf env w =
      Option.map (fun info => env.draw_source_port_for_shard info info.shard)
        w.shard_info := by
  constructor
  · exact openCalls_work env w
  · rcases hsi : w.shard_info with _ | info <;> simp [sourcePortOf, hsi]

/-- C5: when a keyspace was supplied at construction, the fresh connection is
asked to select it, and the outcome of that call is swallowed:
`open_new_connection` returns `Ok` with the connection and the worker
publishes `Connected`, for every behaviour of the connection's
keyspace-selection operation. -/
theorem c5_keyspace_failure_swallowed (env : Env) (w : ConnectionKeeperWorker)
    (c : Connection)
    (uks : Connection → VerifiedKeyspaceName → Except QueryError Unit)
    (h : env.open_connection w.address (sourcePortOf env w) w.config = Except.ok c) :
    (open_new_connection { env with conn_use_keyspace := uks } w).2 = Except.ok c ∧
    publishes (work { env with conn_use_keyspace := uks } w) =
      [ConnectionState.Connected c] ∧
    (∀ ks, w.used_keyspace = some ks →
      Event.useKeyspaceCall c ks ∈
        (open_new_connection { env with conn_use_keyspace := uks } w).1) := by
  have h2 : ({ env with conn_use_keyspace := uks } : Env).open_connection w.address
      (sourcePortOf { env with conn_use_keyspace := uks } w) w.config = Except.ok c := h
  refine ⟨?_, ?_, ?_⟩
  · rw [open_new_connection_snd, h2]
  · rw [publishes_work, h2]
  · intro ks hks
    have hsp : sourcePortOf { env with conn_use_keyspace := uks } w = sourcePortOf env w :=
      rfl
    simp [open_new_connection_eq, hsp, h, hks]

/-- C6: once `Connected(c)` is the published state, `get_connection` returns
`Ok` with that same shared handle (so repeated calls all return it), and the
worker made exactly one open call in its whole run. -/
theorem c6_same_handle (env : Env) (w : ConnectionKeeperWorker) (c : Connection)
    (h : finalState env w = ConnectionState.Connected c) :
    get_connection env w = some (Except.ok c) ∧
    (openCalls (work env w)).length = 1 := by
  refine ⟨?_, ?_⟩
  · simp [get_connection, h, resolveState]
  · rw [openCalls_work]
    rfl

/-- C7: on success the worker publishes `Connected` strictly before any sink
event; without a configured sink nothing is sent; and the published state
sequence is the same for every sink configuration (present or absent,
poisoned or not, send failing or not). -/
theorem c7_publish_before_sink (env : Env) (w : ConnectionKeeperWorker) (c : Connection)
    (h : env.open_connection w.address (sourcePortOf env w) w.config = Except.ok c) :
    (∃ pre post, work env w = pre ++ Event.publish (ConnectionState.Connected c) :: post ∧
      (∀ ev ∈ pre, ∀ v, ev ≠ Event.sinkSend v) ∧
      (∀ ev ∈ post, ∃ v, ev = Event.sinkSend v)) ∧
    (w.has_shard_info_sender = false → ∀ v, Event.sinkSend v ∉ work env w) ∧
    (∀ b₁ b₂ b₃,
      publishes (work { env with sink_lock_poisoned := b₁, sink_send_fails := b₂ }
          { w with has_shard_info_sender := b₃ }) =
        [ConnectionState.Connected c]) := by
  refine ⟨?_, ?_, ?_⟩
  · refine ⟨(open_new_connection env w).1,
      (if w.has_shard_info_sender then
        if env.sink_lock_poisoned then [] else [Event.sinkSend (env.get_shard_info c)]
      else []), ?_, ?_, ?_⟩
    · rw [work_ok_eq env w c h]
      simp
    · intro ev hev v
      rw [open_new_connection_eq, h] at hev
      rcases hks : w.used_keyspace with _ | ks <;> rw [hks] at hev <;>
        simp at hev <;> rcases hev with rfl | rfl <;> simp
    · intro ev hev
      cases hs : w.has_shard_info_sender <;> rw [hs] at hev
      · simp at hev
      · cases hp : env.sink_lock_poisoned <;> rw [hp] at hev
        · simp at hev
          exact ⟨_, hev⟩
        · simp at hev
  · intro hs v hv
    rw [work_ok_eq env w c h, hs] at hv
    rw [open_new_connection_eq, h] at hv
    rcases hks : w.used_keyspace with _ | ks <;> rw [hks] at hv <;> simp at hv
  · intro b₁ b₂ b₃
    have h2 : ({ env with sink_lock_poisoned := b₁, sink_send_fails := b₂ } : Env).open_connection
        ({ w with has_shard_info_sender := b₃ } : ConnectionKeeperWorker).address
        (sourcePortOf { env with sink_lock_poisoned := b₁, sink_send_fails := b₂ }
          { w with has_shard_info_sender := b₃ })
        ({ w with has_shard_info_sender := b₃ } : ConnectionKeeperWorker).config =
        Except.ok c := h
    rw [publishes_work, h2]

/-- C8: `use_keyspace` takes the keeper by shared reference and leaves the
worker's construction-time data, in particular `used_keyspace`, unchanged:
the connection-open behaviour after a `use_keyspace` call is identical to
the one before it. -/
theorem c8_use_keyspace_frame (env : Env) (w : ConnectionKeeperWorker)
    (keyspace_name : VerifiedKeyspaceName) :
    (use_keyspace_full env w keyspace_name).2 = w ∧
    (use_keyspace_full env w keyspace_name).2.used_keyspace = w.used_keyspace ∧
    open_new_connection env (use_keyspace_full env w keyspace_name).2 =
      open_new_connection env w :=
  ⟨rfl, rfl, rfl⟩

/-- C9: for every set of concurrent callers of `wait_until_initialized`,
whatever the interleaving of their first reads with the worker's single
publication, all complete (no deadlock), and all observe the same final
state, which is terminal (not `Initializing`). -/
theorem c9_concurrent_waiters (env : Env) (w : ConnectionKeeperWorker)
    (callers : List Nat)
    (hc : ∀ j ∈ callers, 0 < j ∧ j ≤ (statesSeen env w).length) :
    (∀ j ∈ callers,
      wait_until_initialized (statesSeen env w) j = some (finalState env w)) ∧
    finalState env w ≠ ConnectionState.Initializing := by
  refine ⟨?_, finalState_ne_initializing env w⟩
  intro j hj
  exact wait_eq_finalState env w j (hc j hj).1 (hc j hj).2

/-- C10: the value sent through the shard-info sink is exactly what
`get_shard_info()` reports on the newly opened connection, and it replaces
whatever value the sink previously held (with a configured, unpoisoned sink
whose send succeeds). -/
theorem c10_sink_value (env : Env) (w : ConnectionKeeperWorker) (c : Connection)
    (prev : Option ShardInfo)
    (h : env.open_connection w.address (sourcePortOf env w) w.config = Except.ok c)
    (hs : w.has_shard_info_sender = true)
    (hp : env.sink_lock_poisoned = false)
    (hf : env.sink_send_fails = false) :
    Event.sinkSend (env.get_shard_info c) ∈ work env w ∧
    sinkValueAfter env prev (work env w) = env.get_shard_info c := by
  rw [work_ok_eq env w c h, hs, hp]
  rw [open_new_connection_eq, h]
  rcases hks : w.used_keyspace with _ | ks <;>
    simp [sinkValueAfter, hf]

/-- Witness for C2: concrete keeper, caller reading at the seed value. -/
theorem c2_wait_postcondition_witness :
    ∃ st, wait_until_initialized (statesSeen envOkEx wEx) 1 = some st ∧
      st ≠ ConnectionState.Initializing ∧
      ((∃ c, st = ConnectionState.Connected c ∧ resolveState st = some (Except.ok c)) ∨
        (∃ e, st = ConnectionState.Broken e ∧ resolveState st = some (Except.error e))) :=
  c2_wait_postcondition envOkEx wEx 1 (by decide) (by decide)

/-- Witness for C3: the open call fails with error `5`, and every consumer
path reports exactly that error. -/
theorem c3_broken_terminal_witness :
    statesSeen envErrEx wEx =
        [ConnectionState.Initializing, ConnectionState.Broken ⟨5⟩] ∧
    finalState envErrEx wEx = ConnectionState.Broken ⟨5⟩ ∧
    get_connection envErrEx wEx = some (Except.error ⟨5⟩) ∧
    use_keyspace envErrEx wEx ⟨"ks2"⟩ = some (Except.error ⟨5⟩, []) :=
  c3_broken_terminal envErrEx wEx ⟨"ks2"⟩ ⟨5⟩ rfl

/-- Witness for C5: the keyspace-selection call fails with error `9`, yet the
connection is returned `Ok` and `Connected` is published, and the
keyspace-selection call was made. -/
theorem c5_keyspace_failure_swallowed_witness :
    (open_new_connection envOkKsFail wEx).2 = Except.ok ⟨7⟩ ∧
    publishes (work envOkKsFail wEx) = [ConnectionState.Connected ⟨7⟩] ∧
    Event.useKeyspaceCall ⟨7⟩ ⟨"ks1"⟩ ∈ (open_new_connection envOkKsFail wEx).1 :=
  have h := c5_keyspace_failure_swallowed envOkEx wEx ⟨7⟩ (fun _ _ => Except.error ⟨9⟩) rfl
  ⟨h.1, h.2.1, h.2.2 ⟨"ks1"⟩ rfl⟩

/-- Witness for C6: after success, `get_connection` yields the published
handle `7` and the run contains exactly one open call. -/
theorem c6_same_handle_witness :
    get_connection envOkEx wEx = some (Except.ok ⟨7⟩) ∧
    (openCalls (work envOkEx wEx)).length = 1 :=
  c6_same_handle envOkEx wEx ⟨7⟩ rfl

/-- Witness for C7: concrete successful run, publication before sink events,
and a published sequence independent of the sink configuration. -/
theorem c7_publish_before_sink_witness :
    (∃ pre post,
      work envOkEx wEx = pre ++ Event.publish (ConnectionState.Connected ⟨7⟩) :: post ∧
      (∀ ev ∈ pre, ∀ v, ev ≠ Event.sinkSend v) ∧
      (∀ ev ∈ post, ∃ v, ev = Event.sinkSend v)) ∧
    (wEx.has_shard_info_sender = false → ∀ v, Event.sinkSend v ∉ work envOkEx wEx) ∧
    (∀ b₁ b₂ b₃,
      publishes (work { envOkEx with sink_lock_poisoned := b₁, sink_send_fails := b₂ }
          { wEx with has_shard_info_sender := b₃ }) =
        [ConnectionState.Connected ⟨7⟩]) :=
  c7_publish_before_sink envOkEx wEx ⟨7⟩ rfl

/-- Witness for C9: two callers, one reading before the publication and one
after, both observe the terminal state. -/
theorem c9_concurrent_waiters_witness :
    (∀ j ∈ [1, 2],
      wait_until_initialized (statesSeen envOkEx wEx) j = some (finalState envOkEx wEx)) ∧
    finalState envOkEx wEx ≠ ConnectionState.Initializing :=
  c9_concurrent_waiters envOkEx wEx [1, 2] (by decide)

/-- Witness for C10: the keeper was built with `Some(ShardInfo(shard 3))`,
yet the connection reports no shard info, so `None` is sent and replaces the
sink's previous value `Some(ShardInfo(shard 6))`. -/
theorem c10_sink_value_witness :
    Event.sinkSend (none : Option ShardInfo) ∈ work envOkEx wEx ∧
    sinkValueAfter envOkEx (some ⟨6⟩) (work envOkEx wEx) = none :=
  c10_sink_value envOkEx wEx ⟨7⟩ (some ⟨6⟩) rfl rfl rfl rfl

end ConnKeeper
